import Mathlib

/-!
Shallow embedding of the SmartHeal chatbot front-end
(src/static/js/main.js) and proofs about its chat / voice-recording
interaction flow.

The browser page state is modelled as an explicit record `AppState`;
each JavaScript function that mutates the page becomes a Lean function
`AppState → ... → AppState`.  Asynchronous round-trips (fetch to /ask,
/clear, /transcribe_audio) are modelled by passing the settled outcome
of the request as an explicit argument, and the in-flight interleaving
window of askQuestion is exposed by splitting it into a start phase
(everything before the awaited fetch) and a settle phase (everything
after).
-/

namespace SmartHeal

/-- A chat-message author: `message user` / `message assistant`
(the `role` argument of addMessage). -/
inductive Role
  | user
  | assistant
  deriving DecidableEq, Repr

/-- One child element of the #chat-messages container: the empty-chat
placeholder, a rendered chat message, or a loading indicator created by
addLoadingMessage with id `loading-<now>`. -/
inductive Entry
  | emptyChat
  | message (role : Role) (text : String)
  | loading (id : Nat)
  deriving DecidableEq, Repr

/-- A dismissible alert banner created by showAlert(message, type). -/
structure Alert where
  message : String
  level : String
  deriving DecidableEq, Repr

/-- One track of the microphone MediaStream; `stopped` records whether
track.stop() has been called on it. -/
structure Track where
  stopped : Bool
  deriving DecidableEq, Repr

/-- The MediaRecorder object created by startRecording: the tracks of
the stream it was given and the mimeType chosen by the capability
probe. -/
structure MediaRecorder where
  tracks : List Track
  mimeType : String
  deriving DecidableEq, Repr

/-- One element of a transcription result's `segments` array. -/
structure Segment where
  speaker : String
  text : String
  deriving DecidableEq, Repr

/-- The JSON body of a successful /transcribe_audio response.
`segments` is an Option because the code tests `result.segments &&`
before using it. -/
structure TranscriptionResult where
  transcription : String
  language : String
  segments : Option (List Segment)
  speaker_count : Int
  deriving DecidableEq, Repr

/-- One rendered line of the per-speaker breakdown: the speaker badge
and the trimmed segment text. -/
structure SpeakerEntry where
  speaker : String
  text : String
  deriving DecidableEq, Repr

/-- Contents of the #speaker-info element set by
displayTranscriptionResult. -/
inductive SpeakerInfoHtml
  | initial
  | breakdown (speakerCount : Int) (entries : List SpeakerEntry)
  | singleSpeaker
  deriving DecidableEq, Repr

/-- The page state touched by main.js: the global mutable variables
(isAsking, isRecording, mediaRecorder, audioChunks,
currentTranscription) plus the DOM pieces the code reads or writes. -/
structure AppState where
  isAsking : Bool
  isRecording : Bool
  mediaRecorder : Option MediaRecorder
  audioChunks : List (List Nat)
  currentTranscription : String
  questionValue : String
  questionDisabled : Bool
  askDisabled : Bool
  entries : List Entry
  alerts : List Alert
  recordingStatus : String
  transcriptionText : Option (String × String)
  speakerInfo : SpeakerInfoHtml
  panelVisible : Bool
  deriving DecidableEq, Repr

/-- The page as loaded: one empty-chat placeholder, everything idle. -/
def initialState : AppState where
  isAsking := false
  isRecording := false
  mediaRecorder := none
  audioChunks := []
  currentTranscription := ""
  questionValue := ""
  questionDisabled := false
  askDisabled := false
  entries := [.emptyChat]
  alerts := []
  recordingStatus := ""
  transcriptionText := none
  speakerInfo := .initial
  panelVisible := false

/-- JavaScript `x || d` on an optional string: absent and "" are falsy. -/
def jsOrDefault (x : Option String) (d : String) : String :=
  match x with
  | some s => if s = "" then d else s
  | none => d

/-- The characters JavaScript's String.prototype.trim strips (the ASCII
WhiteSpace and LineTerminator code points). -/
def jsWhitespace (c : Char) : Bool :=
  c = ' ' || c = '\t' || c = '\n' || c = '\r' || c = '\x0b' || c = '\x0c'

/-- JavaScript `s.trim()`: strip leading and trailing whitespace. -/
def jsTrim (s : String) : String :=
  ⟨((s.data.dropWhile jsWhitespace).reverse.dropWhile jsWhitespace).reverse⟩

/-- Whether an Entry is the `.empty-chat` placeholder. -/
def Entry.isEmptyChat : Entry → Bool
  | .emptyChat => true
  | _ => false

/-- addMessage first does `querySelector(\x7b.empty-chat\x7d)` and removes
the first match, if any: remove the first empty-chat entry of the
list. -/
def removeFirstEmptyChat : List Entry → List Entry
  | [] => []
  | e :: rest => if e.isEmptyChat then rest else e :: removeFirstEmptyChat rest

/-- removeLoadingMessage(id) does getElementById(id).remove(): remove
the first loading entry with that id, if any. -/
def removeFirstLoading (id : Nat) : List Entry → List Entry
  | [] => []
  | e :: rest => if e = .loading id then rest else e :: removeFirstLoading id rest

/-- addMessage(role, content): drop the empty-chat placeholder if
present, then append the new message element. -/
def addMessage (st : AppState) (role : Role) (content : String) : AppState :=
  { st with entries := removeFirstEmptyChat st.entries ++ [.message role content] }

/-- addLoadingMessage(): append a loading element with id
`loading-<now>` (now = Date.now()) and return that id. -/
def addLoadingMessage (st : AppState) (now : Nat) : AppState × Nat :=
  ({ st with entries := st.entries ++ [.loading now] }, now)

/-- removeLoadingMessage(loadingId). -/
def removeLoadingMessage (st : AppState) (id : Nat) : AppState :=
  { st with entries := removeFirstLoading id st.entries }

/-- showAlert(message, type): all existing dismissible alerts are
removed, then the new one is inserted — afterwards exactly the new
alert is present. -/
def showAlert (st : AppState) (message level : String) : AppState :=
  { st with alerts := [⟨message, level⟩] }

/-- Settled outcome of the /ask fetch: a parsed success body, a parsed
failure body (whose `error` field may be absent), or a rejected
promise (network error). -/
inductive AskOutcome
  | success (answer : String)
  | failure (err : Option String)
  | transportError
  deriving DecidableEq, Repr

/-- The part of askQuestion that runs synchronously before the awaited
fetch: the guard, the isAsking/disabled flips, the user message, the
input clear and the loading placeholder.  Returns the new state and
`some loadingId` when a request was issued, `none` when the call was a
guarded no-op. -/
def askQuestionStart (st : AppState) (now : Nat) : AppState × Option Nat :=
  let question := jsTrim st.questionValue
  if question = "" ∨ st.isAsking then (st, none)
  else
    let st1 := { st with isAsking := true, questionDisabled := true, askDisabled := true }
    let st2 := addMessage st1 .user question
    let st3 := { st2 with questionValue := "" }
    let (st4, loadingId) := addLoadingMessage st3 now
    (st4, some loadingId)

/-- The part of askQuestion that runs after the fetch settles: the
try/catch branches on the outcome, then the finally block re-enables
everything. -/
def askQuestionSettle (st : AppState) (loadingId : Nat) (outcome : AskOutcome) : AppState :=
  let st1 :=
    match outcome with
    | .success answer =>
        let s := removeLoadingMessage st loadingId
        addMessage s .assistant answer
    | .failure err =>
        let s := removeLoadingMessage st loadingId
        let s := showAlert s (jsOrDefault err "Failed to get answer") "danger"
        addMessage s .assistant "Sorry, I encountered an error while processing your question. Please try again."
    | .transportError =>
        let s := removeLoadingMessage st loadingId
        let s := showAlert s "Network error occurred" "danger"
        addMessage s .assistant "Sorry, I encountered a network error. Please check your connection and try again."
  { st1 with isAsking := false, questionDisabled := false, askDisabled := false }

/-- A full askQuestion round-trip: start phase, then — when a request
was issued — the settle phase with the given outcome. -/
def askQuestion (st : AppState) (now : Nat) (outcome : AskOutcome) : AppState :=
  match askQuestionStart st now with
  | (st1, none) => st1
  | (st1, some loadingId) => askQuestionSettle st1 loadingId outcome

/-- A burst of submit attempts all landing while no earlier request has
settled: each attempt runs only the start phase.  Returns the final
state and how many /ask requests were issued. -/
def submitAttempts (st : AppState) : List Nat → AppState × Nat
  | [] => (st, 0)
  | t :: ts =>
    let r := askQuestionStart st t
    let later := submitAttempts r.1 ts
    (later.1, later.2 + if r.2.isSome then 1 else 0)

/-- Settled outcome of the /clear fetch: a 2xx response, a non-2xx
response (response.ok false), or a rejected promise. -/
inductive ClearOutcome
  | okResp
  | notOk
  | transportError
  deriving DecidableEq, Repr

/-- clearChat(): on response.ok, the message container is replaced by
the empty-chat placeholder and an info alert is shown; on a non-2xx
response the `if` has no else branch, so nothing at all happens; on a
transport error the catch shows a danger alert. -/
def clearChat (st : AppState) (outcome : ClearOutcome) : AppState :=
  match outcome with
  | .okResp =>
      let st1 := { st with entries := [.emptyChat] }
      showAlert st1 "Chat history cleared" "info"
  | .notOk => st
  | .transportError => showAlert st "Failed to clear chat" "danger"

/-- The MediaRecorder mimeType capability probe of startRecording:
default audio/wav; if wav is unsupported, try audio/webm then
audio/mp4, keeping wav when neither fallback is supported. -/
def selectMimeType (supported : String → Bool) : String :=
  let mt := "audio/wav"
  if ¬ supported "audio/wav" then
    if supported "audio/webm" then "audio/webm"
    else if supported "audio/mp4" then "audio/mp4"
    else mt
  else mt

/-- The success path of startRecording after getUserMedia resolves with
a stream holding `tracks`: probe the mime type, create the recorder,
reset audioChunks, flip isRecording, switch the recording UI on. -/
def startRecording (st : AppState) (tracks : List Track) (supported : String → Bool) :
    AppState :=
  { st with
    mediaRecorder := some ⟨tracks, selectMimeType supported⟩
    audioChunks := []
    isRecording := true
    recordingStatus := "Recording... Click stop when done." }

/-- The ondataavailable handler: push the event's data chunk. -/
def onDataAvailable (st : AppState) (chunk : List Nat) : AppState :=
  { st with audioChunks := st.audioChunks ++ [chunk] }

/-- The concatenated Blob built by the onstop handler:
`new Blob(audioChunks, \x7b type: options.mimeType \x7d)`. -/
structure Blob where
  parts : List (List Nat)
  type : String
  deriving DecidableEq, Repr

/-- The Blob the onstop handler assembles, available once a recorder
exists. -/
def onStopBlob (st : AppState) : Option Blob :=
  st.mediaRecorder.map fun r => ⟨st.audioChunks, r.mimeType⟩

/-- stopRecording(): guarded by `mediaRecorder && isRecording`; inside
the guard it stops the recorder, calls track.stop() on every stream
track, clears isRecording and shows the processing status. -/
def stopRecording (st : AppState) : AppState :=
  match st.mediaRecorder with
  | none => st
  | some r =>
      if st.isRecording then
        { st with
          mediaRecorder := some { r with tracks := r.tracks.map fun _ => ⟨true⟩ }
          isRecording := false
          recordingStatus := "Processing audio..." }
      else st

/-- Settled outcome of the /transcribe_audio fetch. -/
inductive TranscribeOutcome
  | success (r : TranscriptionResult)
  | failure (err : Option String)
  | transportError
  deriving DecidableEq, Repr

/-- displayTranscriptionResult(result): store the transcript, fill the
quoted text + uppercased language, and render either the per-speaker
breakdown (when segments exist, more than one segment, and
speaker_count > 1 — keeping, in order, each segment whose text is
non-empty after trimming, as its speaker badge plus trimmed text) or
the single-speaker notice; finally show the panel. -/
def displayTranscriptionResult (st : AppState) (r : TranscriptionResult) : AppState :=
  { st with
    currentTranscription := r.transcription
    transcriptionText := some (r.transcription, r.language.toUpper)
    speakerInfo :=
      match r.segments with
      | some segs =>
          if segs.length > 1 ∧ r.speaker_count > 1 then
            .breakdown r.speaker_count
              (segs.filterMap fun s =>
                if jsTrim s.text = "" then none else some ⟨s.speaker, jsTrim s.text⟩)
          else .singleSpeaker
      | none => .singleSpeaker
    panelVisible := true }

/-- processAudioBlob: on success hand the result to
displayTranscriptionResult, on a failure body or transport error show
an alert; the finally block always clears the recording status. -/
def processAudioBlob (st : AppState) (outcome : TranscribeOutcome) : AppState :=
  let st1 :=
    match outcome with
    | .success r => displayTranscriptionResult st r
    | .failure err => showAlert st (jsOrDefault err "Transcription failed") "danger"
    | .transportError => showAlert st "Error processing audio" "danger"
  { st1 with recordingStatus := "" }

/-- useTranscription(): only when currentTranscription is truthy
(non-empty) copy it into the question input and hide the panel. -/
def useTranscription (st : AppState) : AppState :=
  if st.currentTranscription ≠ "" then
    { st with questionValue := st.currentTranscription, panelVisible := false }
  else st

/-- hideTranscription(): hide the transcription panel. -/
def hideTranscription (st : AppState) : AppState :=
  { st with panelVisible := false }

/-! ## Helper lemmas -/

theorem removeFirstEmptyChat_subset (l : List Entry) :
    removeFirstEmptyChat l ⊆ l := by
  induction l with
  | nil => simp [removeFirstEmptyChat]
  | cons e rest ih =>
    simp only [removeFirstEmptyChat]
    split
    · exact List.subset_cons_self e rest
    · exact List.cons_subset_cons e ih

theorem removeFirstEmptyChat_eq_self (l : List Entry)
    (h : Entry.emptyChat ∉ l) : removeFirstEmptyChat l = l := by
  induction l with
  | nil => rfl
  | cons e rest ih =>
    have he : e.isEmptyChat = false := by
      cases e with
      | emptyChat => exact absurd (List.mem_cons_self _ _) h
      | message r t => rfl
      | loading i => rfl
    simp only [removeFirstEmptyChat, he, Bool.false_eq_true, if_false]
    rw [ih fun hm => h (List.mem_cons_of_mem _ hm)]

theorem removeFirstLoading_append (id : Nat) (l : List Entry)
    (h : Entry.loading id ∉ l) :
    removeFirstLoading id (l ++ [.loading id]) = l := by
  induction l with
  | nil => simp [removeFirstLoading]
  | cons e rest ih =>
    have he : e ≠ Entry.loading id := fun h2 => h (h2 ▸ List.mem_cons_self _ _)
    simp only [List.cons_append, removeFirstLoading, if_neg he]
    exact congrArg (List.cons e) (ih fun hm => h (List.mem_cons_of_mem _ hm))

theorem askQuestionStart_busy (st : AppState) (now : Nat)
    (h : st.isAsking = true) : askQuestionStart st now = (st, none) := by
  simp [askQuestionStart, h]

theorem submitAttempts_busy (st : AppState) (ts : List Nat)
    (h : st.isAsking = true) : submitAttempts st ts = (st, 0) := by
  induction ts with
  | nil => rfl
  | cons t ts ih => simp [submitAttempts, askQuestionStart_busy st t h, ih]

/-- The page state right after the start phase of askQuestion accepted
a question: flags flipped, user message appended, input cleared,
loading placeholder appended. -/
def acceptedState (st : AppState) (now : Nat) : AppState :=
  { st with
    isAsking := true
    questionDisabled := true
    askDisabled := true
    questionValue := ""
    entries := (removeFirstEmptyChat st.entries ++
      [.message .user (jsTrim st.questionValue)]) ++ [.loading now] }

/-- Explicit description of the state after the start phase accepts. -/
theorem askQuestionStart_accepts (st : AppState) (now : Nat)
    (hq : jsTrim st.questionValue ≠ "") (ha : st.isAsking = false) :
    askQuestionStart st now = (acceptedState st now, some now) := by
  simp [askQuestionStart, addMessage, addLoadingMessage, acceptedState, hq, ha]

/-! ## Claim theorems -/

/-- Claim C2: a call with whitespace-only input or with a question
outstanding is a complete no-op, and in a burst of submissions landing
while the first is outstanding only the first issues a request. -/
theorem askQuestion_guard_noop :
    (∀ (st : AppState) (now : Nat) (outcome : AskOutcome),
        jsTrim st.questionValue = "" ∨ st.isAsking = true →
        askQuestion st now outcome = st) ∧
    (∀ (st : AppState) (now : Nat) (rest : List Nat),
        jsTrim st.questionValue ≠ "" → st.isAsking = false →
        submitAttempts st (now :: rest) = ((askQuestionStart st now).1, 1)) := by
  constructor
  · intro st now outcome h
    have hg : askQuestionStart st now = (st, none) := by
      rcases h with h | h
      · simp [askQuestionStart, h]
      · exact askQuestionStart_busy st now h
    rw [askQuestion, hg]
  · intro st now rest hq ha
    have hacc := askQuestionStart_accepts st now hq ha
    have hbusy : (acceptedState st now).isAsking = true := rfl
    simp [submitAttempts, hacc, submitAttempts_busy (acceptedState st now) rest hbusy]

/-- A page state whose question input holds a non-blank question. -/
def readyState : AppState :=
  { initialState with questionValue := "What is RAG?" }

/-- A page state with a question round-trip outstanding. -/
def busyState : AppState :=
  { initialState with isAsking := true, questionValue := "What is RAG?" }

theorem askQuestion_guard_noop_witness :
    askQuestion busyState 0 (.success "a") = busyState ∧
    submitAttempts readyState [0, 1, 2] = ((askQuestionStart readyState 0).1, 1) :=
  ⟨askQuestion_guard_noop.1 busyState 0 (.success "a") (Or.inr rfl),
   askQuestion_guard_noop.2 readyState 0 [1, 2] (by decide) rfl⟩

example : jsTrim "  What is RAG?  " = "What is RAG?" := by decide
example : jsTrim "   " = "" := by decide

theorem loading_not_mem_msg_append (id : Nat) (l : List Entry) (r : Role)
    (t : String) (h : Entry.loading id ∉ l) :
    Entry.loading id ∉ removeFirstEmptyChat l ++ [Entry.message r t] := by
  intro hm
  rcases List.mem_append.1 hm with h2 | h2
  · exact h (removeFirstEmptyChat_subset _ h2)
  · simp at h2

theorem accepted_removeLoading (st : AppState) (now : Nat)
    (hl : Entry.loading now ∉ st.entries) :
    removeFirstLoading now (acceptedState st now).entries =
      removeFirstEmptyChat st.entries ++
        [Entry.message .user (jsTrim st.questionValue)] := by
  apply removeFirstLoading_append
  intro hm
  rcases List.mem_append.1 hm with h | h
  · exact hl (removeFirstEmptyChat_subset _ h)
  · simp at h

theorem accepted_noEmpty (st : AppState)
    (he : Entry.emptyChat ∉ removeFirstEmptyChat st.entries) :
    removeFirstEmptyChat (removeFirstEmptyChat st.entries ++
        [Entry.message .user (jsTrim st.questionValue)]) =
      removeFirstEmptyChat st.entries ++
        [Entry.message .user (jsTrim st.questionValue)] := by
  apply removeFirstEmptyChat_eq_self
  intro hm
  rcases List.mem_append.1 hm with h | h
  · exact he h
  · simp at h

/-- Claim C1: whenever the acceptance guard passes, after the round
trip settles — success, failure body or transport error alike — the
finally block has cleared isAsking, re-enabled the input and the ask
button, and the loading placeholder of this call is gone. -/
theorem askQuestion_always_reenables (st : AppState) (now : Nat)
    (outcome : AskOutcome)
    (hq : jsTrim st.questionValue ≠ "") (ha : st.isAsking = false)
    (hl : Entry.loading now ∉ st.entries) :
    (askQuestion st now outcome).isAsking = false ∧
    (askQuestion st now outcome).questionDisabled = false ∧
    (askQuestion st now outcome).askDisabled = false ∧
    Entry.loading now ∉ (askQuestion st now outcome).entries := by
  have hacc := askQuestionStart_accepts st now hq ha
  have hbase := loading_not_mem_msg_append now st.entries .user
    (jsTrim st.questionValue) hl
  simp only [askQuestion, hacc]
  cases outcome with
  | success ans =>
    refine ⟨rfl, rfl, rfl, ?_⟩
    show Entry.loading now ∉
      removeFirstEmptyChat (removeFirstLoading now (acceptedState st now).entries) ++
        [Entry.message .assistant ans]
    rw [accepted_removeLoading st now hl]
    exact loading_not_mem_msg_append now _ .assistant ans hbase
  | failure err =>
    refine ⟨rfl, rfl, rfl, ?_⟩
    show Entry.loading now ∉
      removeFirstEmptyChat (removeFirstLoading now (acceptedState st now).entries) ++
        [Entry.message .assistant
          "Sorry, I encountered an error while processing your question. Please try again."]
    rw [accepted_removeLoading st now hl]
    exact loading_not_mem_msg_append now _ .assistant _ hbase
  | transportError =>
    refine ⟨rfl, rfl, rfl, ?_⟩
    show Entry.loading now ∉
      removeFirstEmptyChat (removeFirstLoading now (acceptedState st now).entries) ++
        [Entry.message .assistant
          "Sorry, I encountered a network error. Please check your connection and try again."]
    rw [accepted_removeLoading st now hl]
    exact loading_not_mem_msg_append now _ .assistant _ hbase

theorem askQuestion_always_reenables_witness :
    (askQuestion readyState 7 .transportError).isAsking = false ∧
    (askQuestion readyState 7 .transportError).questionDisabled = false ∧
    (askQuestion readyState 7 .transportError).askDisabled = false ∧
    Entry.loading 7 ∉ (askQuestion readyState 7 .transportError).entries :=
  askQuestion_always_reenables readyState 7 .transportError
    (by decide) rfl (by decide)

/-- Claim C3: a successful round trip appends exactly the user message
then the assistant answer, in order, clears the input and re-enables
the controls. -/
theorem askQuestion_success_appends (st : AppState) (now : Nat) (ans : String)
    (hq : jsTrim st.questionValue ≠ "") (ha : st.isAsking = false)
    (hl : Entry.loading now ∉ st.entries)
    (he : Entry.emptyChat ∉ removeFirstEmptyChat st.entries) :
    (askQuestion st now (.success ans)).entries =
      removeFirstEmptyChat st.entries ++
        [.message .user (jsTrim st.questionValue), .message .assistant ans] ∧
    (askQuestion st now (.success ans)).questionValue = "" ∧
    (askQuestion st now (.success ans)).questionDisabled = false ∧
    (askQuestion st now (.success ans)).askDisabled = false ∧
    (askQuestion st now (.success ans)).isAsking = false := by
  have hacc := askQuestionStart_accepts st now hq ha
  simp only [askQuestion, hacc]
  refine ⟨?_, rfl, rfl, rfl, rfl⟩
  show removeFirstEmptyChat (removeFirstLoading now (acceptedState st now).entries) ++
      [Entry.message .assistant ans] =
    removeFirstEmptyChat st.entries ++
      [Entry.message .user (jsTrim st.questionValue), Entry.message .assistant ans]
  rw [accepted_removeLoading st now hl, accepted_noEmpty st he,
    List.append_assoc]
  rfl

theorem askQuestion_success_appends_witness :
    (askQuestion readyState 3 (.success "RAG combines retrieval and generation.")).entries =
      removeFirstEmptyChat readyState.entries ++
        [.message .user (jsTrim readyState.questionValue),
         .message .assistant "RAG combines retrieval and generation."] ∧
    (askQuestion readyState 3 (.success "RAG combines retrieval and generation.")).questionValue = "" ∧
    (askQuestion readyState 3 (.success "RAG combines retrieval and generation.")).questionDisabled = false ∧
    (askQuestion readyState 3 (.success "RAG combines retrieval and generation.")).askDisabled = false ∧
    (askQuestion readyState 3 (.success "RAG combines retrieval and generation.")).isAsking = false :=
  askQuestion_success_appends readyState 3 "RAG combines retrieval and generation."
    (by decide) rfl (by decide) (by decide)

/-- Claim C4: a failure body yields one alert carrying the server
error (or the generic default when absent) and one apology assistant
message after the user message; a transport error yields one alert
with the network message and its own apology message; in both cases
the loading placeholder of the call is gone. -/
theorem askQuestion_failure_alert (st : AppState) (now : Nat) (err : Option String)
    (hq : jsTrim st.questionValue ≠ "") (ha : st.isAsking = false)
    (hl : Entry.loading now ∉ st.entries)
    (he : Entry.emptyChat ∉ removeFirstEmptyChat st.entries) :
    ((askQuestion st now (.failure err)).entries =
        removeFirstEmptyChat st.entries ++
          [.message .user (jsTrim st.questionValue),
           .message .assistant
             "Sorry, I encountered an error while processing your question. Please try again."] ∧
      (askQuestion st now (.failure err)).alerts =
        [⟨jsOrDefault err "Failed to get answer", "danger"⟩] ∧
      Entry.loading now ∉ (askQuestion st now (.failure err)).entries) ∧
    ((askQuestion st now .transportError).entries =
        removeFirstEmptyChat st.entries ++
          [.message .user (jsTrim st.questionValue),
           .message .assistant
             "Sorry, I encountered a network error. Please check your connection and try again."] ∧
      (askQuestion st now .transportError).alerts =
        [⟨"Network error occurred", "danger"⟩] ∧
      Entry.loading now ∉ (askQuestion st now .transportError).entries) := by
  have hacc := askQuestionStart_accepts st now hq ha
  have hbase := loading_not_mem_msg_append now st.entries .user
    (jsTrim st.questionValue) hl
  simp only [askQuestion, hacc]
  constructor
  · refine ⟨?_, rfl, ?_⟩
    · show removeFirstEmptyChat (removeFirstLoading now (acceptedState st now).entries) ++
          [Entry.message .assistant
            "Sorry, I encountered an error while processing your question. Please try again."] =
        removeFirstEmptyChat st.entries ++
          [Entry.message .user (jsTrim st.questionValue),
           Entry.message .assistant
             "Sorry, I encountered an error while processing your question. Please try again."]
      rw [accepted_removeLoading st now hl, accepted_noEmpty st he,
        List.append_assoc]
      rfl
    · show Entry.loading now ∉
        removeFirstEmptyChat (removeFirstLoading now (acceptedState st now).entries) ++
          [Entry.message .assistant
            "Sorry, I encountered an error while processing your question. Please try again."]
      rw [accepted_removeLoading st now hl]
      exact loading_not_mem_msg_append now _ .assistant _ hbase
  · refine ⟨?_, rfl, ?_⟩
    · show removeFirstEmptyChat (removeFirstLoading now (acceptedState st now).entries) ++
          [Entry.message .assistant
            "Sorry, I encountered a network error. Please check your connection and try again."] =
        removeFirstEmptyChat st.entries ++
          [Entry.message .user (jsTrim st.questionValue),
           Entry.message .assistant
             "Sorry, I encountered a network error. Please check your connection and try again."]
      rw [accepted_removeLoading st now hl, accepted_noEmpty st he,
        List.append_assoc]
      rfl
    · show Entry.loading now ∉
        removeFirstEmptyChat (removeFirstLoading now (acceptedState st now).entries) ++
          [Entry.message .assistant
            "Sorry, I encountered a network error. Please check your connection and try again."]
      rw [accepted_removeLoading st now hl]
      exact loading_not_mem_msg_append now _ .assistant _ hbase

theorem askQuestion_failure_alert_witness :
    ((askQuestion readyState 5 (.failure (some "index not ready"))).entries =
        removeFirstEmptyChat readyState.entries ++
          [.message .user (jsTrim readyState.questionValue),
           .message .assistant
             "Sorry, I encountered an error while processing your question. Please try again."] ∧
      (askQuestion readyState 5 (.failure (some "index not ready"))).alerts =
        [⟨jsOrDefault (some "index not ready") "Failed to get answer", "danger"⟩] ∧
      Entry.loading 5 ∉ (askQuestion readyState 5 (.failure (some "index not ready"))).entries) ∧
    ((askQuestion readyState 5 .transportError).entries =
        removeFirstEmptyChat readyState.entries ++
          [.message .user (jsTrim readyState.questionValue),
           .message .assistant
             "Sorry, I encountered a network error. Please check your connection and try again."] ∧
      (askQuestion readyState 5 .transportError).alerts =
        [⟨"Network error occurred", "danger"⟩] ∧
      Entry.loading 5 ∉ (askQuestion readyState 5 .transportError).entries) :=
  askQuestion_failure_alert readyState 5 (some "index not ready")
    (by decide) rfl (by decide) (by decide)

/-- processAudioBlob never touches the recorder or its tracks. -/
theorem processAudioBlob_mediaRecorder (s : AppState) (outcome : TranscribeOutcome) :
    (processAudioBlob s outcome).mediaRecorder = s.mediaRecorder := by
  cases outcome <;> rfl

/-- Claim C5: while Recording, stopping releases every acquired track
right away, and the recorder's tracks stay released whatever the
transcription round-trip does; while not Recording, stop is a no-op. -/
theorem stopRecording_releases_tracks :
    (∀ (st : AppState) (r : MediaRecorder),
        st.mediaRecorder = some r → st.isRecording = true →
        ∃ r2, (stopRecording st).mediaRecorder = some r2 ∧
          (∀ t ∈ r2.tracks, t.stopped = true) ∧
          ∀ outcome, (processAudioBlob (stopRecording st) outcome).mediaRecorder =
            (stopRecording st).mediaRecorder) ∧
    (∀ st : AppState, st.isRecording = false → stopRecording st = st) := by
  constructor
  · intro st r hr hrec
    refine ⟨{ r with tracks := r.tracks.map fun _ => ⟨true⟩ }, ?_, ?_, ?_⟩
    · simp [stopRecording, hr, hrec]
    · intro t ht
      rcases List.mem_map.1 ht with ⟨a, -, rfl⟩
      rfl
    · intro outcome
      exact processAudioBlob_mediaRecorder _ outcome
  · intro st h
    cases hm : st.mediaRecorder with
    | none => simp [stopRecording, hm]
    | some r => simp [stopRecording, hm, h]

/-- A live recording session with two unreleased microphone tracks. -/
def recordingState : AppState :=
  { initialState with
    isRecording := true
    mediaRecorder := some ⟨[⟨false⟩, ⟨false⟩], "audio/webm"⟩
    audioChunks := [[1, 2], [3]] }

theorem stopRecording_releases_tracks_witness :
    (∃ r2, (stopRecording recordingState).mediaRecorder = some r2 ∧
        (∀ t ∈ r2.tracks, t.stopped = true) ∧
        ∀ outcome, (processAudioBlob (stopRecording recordingState) outcome).mediaRecorder =
          (stopRecording recordingState).mediaRecorder) ∧
    stopRecording initialState = initialState :=
  ⟨stopRecording_releases_tracks.1 recordingState ⟨[⟨false⟩, ⟨false⟩], "audio/webm"⟩ rfl rfl,
   stopRecording_releases_tracks.2 initialState rfl⟩

/-- A chat holding one message, no alerts. -/
def oneMessageState : AppState :=
  { initialState with entries := [.message .user "hi"] }

/-- Claim C6 counterexample: a non-2xx /clear response triggers no
alert — the `if (response.ok)` has no else branch, so the call leaves
the whole page state untouched, alerts included. -/
theorem clearChat_notOk_silent :
    clearChat oneMessageState .notOk = oneMessageState ∧
    (clearChat oneMessageState .notOk).alerts = [] :=
  ⟨rfl, rfl⟩

/-- Claim C6 (amended): on a 2xx response the messages are replaced by
the placeholder and an info alert is shown; on a transport error an
error alert is shown and the messages are left intact; on a non-2xx
response the call is a silent no-op — messages intact, but no alert is
shown. -/
theorem clearChat_behavior (st : AppState) :
    (clearChat st .okResp).entries = [.emptyChat] ∧
    (clearChat st .okResp).alerts = [⟨"Chat history cleared", "info"⟩] ∧
    clearChat st .notOk = st ∧
    (clearChat st .transportError).entries = st.entries ∧
    (clearChat st .transportError).alerts = [⟨"Failed to clear chat", "danger"⟩] :=
  ⟨rfl, rfl, rfl, rfl, rfl⟩

/-- Claim C7: with more than one segment and speaker_count > 1 the
panel shows, in original order, one entry per segment whose text is
non-blank after trimming — its speaker label and the trimmed text; in
every other case (segments absent, at most one segment, or
speaker_count ≤ 1, blank segments included) it shows the
single-speaker notice. -/
theorem displayTranscription_speaker_breakdown :
    (∀ (st : AppState) (r : TranscriptionResult) (segs : List Segment),
        r.segments = some segs → segs.length > 1 → r.speaker_count > 1 →
        (displayTranscriptionResult st r).speakerInfo =
          .breakdown r.speaker_count
            (segs.filterMap fun s =>
              if jsTrim s.text = "" then none else some ⟨s.speaker, jsTrim s.text⟩)) ∧
    (∀ (st : AppState) (r : TranscriptionResult),
        (∀ segs, r.segments = some segs → segs.length ≤ 1 ∨ r.speaker_count ≤ 1) →
        (displayTranscriptionResult st r).speakerInfo = .singleSpeaker) := by
  constructor
  · intro st r segs hs h1 h2
    simp [displayTranscriptionResult, hs, h1, h2]
  · intro st r h
    cases hs : r.segments with
    | none => simp [displayTranscriptionResult, hs]
    | some segs =>
      have hno : ¬(segs.length > 1 ∧ r.speaker_count > 1) := by
        rintro ⟨ha, hb⟩
        rcases h segs hs with h2 | h2 <;> omega
      simp [displayTranscriptionResult, hs, hno]

/-- A diarized result: three segments, one blank, two speakers. -/
def multiSpeakerResult : TranscriptionResult :=
  { transcription := "hello there"
    language := "en"
    segments := some [⟨"SPEAKER_00", " hello "⟩, ⟨"SPEAKER_01", "  "⟩, ⟨"SPEAKER_01", "there"⟩]
    speaker_count := 2 }

/-- A single-speaker result carrying several blank segments. -/
def blankSegmentsResult : TranscriptionResult :=
  { transcription := ""
    language := "en"
    segments := some [⟨"SPEAKER_00", ""⟩, ⟨"SPEAKER_00", " "⟩]
    speaker_count := 1 }

/-- A two-speaker result carrying a single segment. -/
def oneSegmentResult : TranscriptionResult :=
  { transcription := "hi"
    language := "en"
    segments := some [⟨"SPEAKER_00", "hi"⟩]
    speaker_count := 2 }

/-- A two-speaker result whose segments field is absent. -/
def noSegmentsResult : TranscriptionResult :=
  { transcription := "hi"
    language := "en"
    segments := none
    speaker_count := 2 }

theorem displayTranscription_speaker_breakdown_witness :
    (displayTranscriptionResult initialState multiSpeakerResult).speakerInfo =
      .breakdown multiSpeakerResult.speaker_count
        ([(⟨"SPEAKER_00", " hello "⟩ : Segment), ⟨"SPEAKER_01", "  "⟩,
            ⟨"SPEAKER_01", "there"⟩].filterMap fun s =>
          if jsTrim s.text = "" then none else some ⟨s.speaker, jsTrim s.text⟩) ∧
    (displayTranscriptionResult initialState blankSegmentsResult).speakerInfo =
      .singleSpeaker ∧
    (displayTranscriptionResult initialState oneSegmentResult).speakerInfo =
      .singleSpeaker ∧
    (displayTranscriptionResult initialState noSegmentsResult).speakerInfo =
      .singleSpeaker :=
  ⟨displayTranscription_speaker_breakdown.1 initialState multiSpeakerResult _
      rfl (by decide) (by decide),
   displayTranscription_speaker_breakdown.2 initialState blankSegmentsResult
     (fun _ _ => Or.inr (by decide)),
   displayTranscription_speaker_breakdown.2 initialState oneSegmentResult
     (fun segs hs => by
       injection hs with h
       subst h
       exact Or.inl (by decide)),
   displayTranscription_speaker_breakdown.2 initialState noSegmentsResult
     (fun segs hs => by simp [noSegmentsResult] at hs)⟩

example :
    (displayTranscriptionResult initialState multiSpeakerResult).speakerInfo =
      .breakdown 2 [⟨"SPEAKER_00", "hello"⟩, ⟨"SPEAKER_01", "there"⟩] := by decide

/-- The panel state after an empty transcription was displayed. -/
def emptyTranscriptPanel : AppState :=
  displayTranscriptionResult initialState ⟨"", "en", none, 1⟩

/-- Claim C8 counterexample: with an empty pending transcript the
`if (currentTranscription)` guard fails, so useTranscription leaves the
panel visible instead of hiding it. -/
theorem useTranscription_empty_keeps_panel :
    emptyTranscriptPanel.panelVisible = true ∧
    (useTranscription emptyTranscriptPanel).panelVisible = true :=
  ⟨rfl, by decide⟩

/-- Claim C8 (amended): with a non-empty pending transcript,
useTranscription copies it verbatim into the question input and hides
the panel; with an empty transcript it is a no-op (panel untouched);
hideTranscription always hides the panel and never touches the
question input. -/
theorem useTranscription_behavior :
    (∀ st : AppState, st.currentTranscription ≠ "" →
        (useTranscription st).questionValue = st.currentTranscription ∧
        (useTranscription st).panelVisible = false) ∧
    (∀ st : AppState, st.currentTranscription = "" → useTranscription st = st) ∧
    (∀ st : AppState, (hideTranscription st).panelVisible = false ∧
        (hideTranscription st).questionValue = st.questionValue) := by
  refine ⟨?_, ?_, fun st => ⟨rfl, rfl⟩⟩
  · intro st h
    simp [useTranscription, h]
  · intro st h
    simp [useTranscription, h]

/-- The panel state after a non-empty transcription was displayed. -/
def pendingTranscriptPanel : AppState :=
  displayTranscriptionResult initialState ⟨"What is RAG?", "en", none, 1⟩

theorem useTranscription_behavior_witness :
    ((useTranscription pendingTranscriptPanel).questionValue =
        pendingTranscriptPanel.currentTranscription ∧
      (useTranscription pendingTranscriptPanel).panelVisible = false) ∧
    useTranscription { initialState with panelVisible := true } =
      { initialState with panelVisible := true } :=
  ⟨useTranscription_behavior.1 pendingTranscriptPanel (by decide),
   useTranscription_behavior.2.1 { initialState with panelVisible := true } rfl⟩

/-- A burst of ondataavailable events accumulates the chunks in order
and touches neither the recorder nor the isRecording flag. -/
theorem foldl_onDataAvailable (chunks : List (List Nat)) (s : AppState) :
    (chunks.foldl onDataAvailable s).mediaRecorder = s.mediaRecorder ∧
    (chunks.foldl onDataAvailable s).isRecording = s.isRecording ∧
    (chunks.foldl onDataAvailable s).audioChunks = s.audioChunks ++ chunks := by
  induction chunks generalizing s with
  | nil => simp
  | cons c cs ih =>
    obtain ⟨h1, h2, h3⟩ := ih (onDataAvailable s c)
    refine ⟨h1, h2, ?_⟩
    rw [List.foldl_cons, h3]
    simp [onDataAvailable]

/-- Claim C9: the recording format is the first supported entry of the
preference list wav, webm, mp4, and the blob assembled at stop carries
exactly the captured chunks tagged with that format. -/
theorem selectMimeType_preference :
    (∀ (st : AppState) (tracks : List Track) (supported : String → Bool)
        (chunks : List (List Nat)),
        onStopBlob (stopRecording
            (chunks.foldl onDataAvailable (startRecording st tracks supported))) =
          some ⟨chunks, selectMimeType supported⟩) ∧
    (∀ supported : String → Bool,
        (supported "audio/wav" = true → selectMimeType supported = "audio/wav") ∧
        (supported "audio/wav" = false → supported "audio/webm" = true →
          selectMimeType supported = "audio/webm") ∧
        (supported "audio/wav" = false → supported "audio/webm" = false →
          supported "audio/mp4" = true → selectMimeType supported = "audio/mp4")) := by
  constructor
  · intro st tracks supported chunks
    obtain ⟨hm, hr, hc⟩ := foldl_onDataAvailable chunks (startRecording st tracks supported)
    have hm2 : (chunks.foldl onDataAvailable (startRecording st tracks supported)).mediaRecorder =
        some ⟨tracks, selectMimeType supported⟩ := hm
    have hr2 : (chunks.foldl onDataAvailable (startRecording st tracks supported)).isRecording =
        true := hr
    have hc2 : (chunks.foldl onDataAvailable (startRecording st tracks supported)).audioChunks =
        chunks := by
      rw [hc]
      rfl
    simp [stopRecording, onStopBlob, hm2, hr2, hc2]
  · intro supported
    refine ⟨?_, ?_, ?_⟩
    · intro h1
      simp [selectMimeType, h1]
    · intro h1 h2
      simp [selectMimeType, h1, h2]
    · intro h1 h2 h3
      simp [selectMimeType, h1, h2, h3]

/-- A runtime supporting only audio/webm. -/
def webmOnly (s : String) : Bool := s = "audio/webm"

theorem selectMimeType_preference_witness :
    onStopBlob (stopRecording
        ([[1, 2], [3]].foldl onDataAvailable
          (startRecording initialState [⟨false⟩] webmOnly))) =
      some ⟨[[1, 2], [3]], selectMimeType webmOnly⟩ ∧
    selectMimeType webmOnly = "audio/webm" :=
  ⟨(selectMimeType_preference.1 initialState [⟨false⟩] webmOnly [[1, 2], [3]]),
   (selectMimeType_preference.2 webmOnly).2.1 (by decide) (by decide)⟩

/-- Claim C10: hiding the transcription panel twice equals hiding it
once, and clearing an already-cleared chat (2xx response both times)
changes nothing further — both operations are idempotent. -/
theorem hide_clear_idempotent (st : AppState) :
    hideTranscription (hideTranscription st) = hideTranscription st ∧
    clearChat (clearChat st .okResp) .okResp = clearChat st .okResp :=
  ⟨rfl, rfl⟩

end SmartHeal
